import Mathlib

/-!
Verification of the web provider (web.go): the REST exposition layer over the
configuration snapshot store.  The handlers registered in Provide are embedded
as pure Lean functions; the snapshot store and the configuration channel are
threaded explicitly.  The types package (Server, Backend, Frontend, Route,
Configuration) is not part of the excerpt, so its shape is modelled from the
spec, section 3.
-/

set_option maxHeartbeats 1000000

/-- Modelled from the spec: types.Server, the leaf entity (address and weight). -/
structure Server where
  url : String
  weight : Int
deriving DecidableEq, Repr

/-- Modelled from the spec: types.Route, a matching rule within a frontend. -/
structure Route where
  rule : String
deriving DecidableEq, Repr

/-- Modelled from the spec: types.Backend, a named pool owning a server map. -/
structure Backend where
  Servers : List (String × Server)
deriving DecidableEq, Repr

/-- Modelled from the spec: types.Frontend, a named entry point owning a route
map and referencing a backend by name. -/
structure Frontend where
  backend : String
  Routes : List (String × Route)
deriving DecidableEq, Repr

/-- Modelled from the spec: types.Configuration, one provider's configuration:
a backend map and a frontend map. -/
structure Configuration where
  Backends : List (String × Backend)
  Frontends : List (String × Frontend)
deriving DecidableEq, Repr

/-- The configs type of web.go: the snapshot mapping provider id to that
provider's Configuration (Go map embedded as an association list with unique
keys). -/
abbrev configs := List (String × Configuration)

/-- Modelled from the spec: types.ConfigMessage, the value sent on the
configuration channel by the PUT handler. -/
structure ConfigMessage where
  providerName : String
  configuration : Configuration
deriving DecidableEq, Repr

/-- A JSON value, the common model for request bodies and response rendering. -/
inductive Json where
  | null
  | bool (b : Bool)
  | num (n : Int)
  | str (s : String)
  | arr (elems : List Json)
  | obj (fields : List (String × Json))
deriving Repr

/-- Escaping for one character inside a Go %q quoted string (quote and
backslash; other characters pass through, which is faithful for the
identifier-like keys that occur here). -/
def goEscapeChar (c : Char) : String :=
  if c = '"' then "\\\"" else if c = '\\' then "\\\\" else c.toString

/-- Go %q quoting of a string. -/
def goQuote (s : String) : String :=
  "\"" ++ String.join (s.toList.map goEscapeChar) ++ "\""

mutual

/-- Deterministic JSON rendering, standing in for the encoding used by
templatesRenderer.JSON in web.go. -/
def Json.render : Json → String
  | Json.null => "null"
  | Json.bool true => "true"
  | Json.bool false => "false"
  | Json.num n => toString n
  | Json.str s => goQuote s
  | Json.arr elems => "[" ++ renderList elems ++ "]"
  | Json.obj fields => "\x7b" ++ renderFields fields ++ "\x7d"

/-- Comma-separated rendering of an array's elements. -/
def renderList : List Json → String
  | [] => ""
  | [j] => Json.render j
  | j :: js => Json.render j ++ "," ++ renderList js

/-- Comma-separated rendering of an object's fields. -/
def renderFields : List (String × Json) → String
  | [] => ""
  | [kv] => goQuote kv.1 ++ ":" ++ Json.render kv.2
  | kv :: kvs => goQuote kv.1 ++ ":" ++ Json.render kv.2 ++ "," ++ renderFields kvs

end

/-- The JSON kind name used in Go unmarshal type-error messages. -/
def jsonKind : Json → String
  | Json.null => "null"
  | Json.bool _ => "bool"
  | Json.num _ => "number"
  | Json.str _ => "string"
  | Json.arr _ => "array"
  | Json.obj _ => "object"

/-- The Go encoding/json type-mismatch error message. -/
def cannotUnmarshal (j : Json) (goType : String) : String :=
  "json: cannot unmarshal " ++ jsonKind j ++ " into Go value of type " ++ goType

/-- Decoding a JSON value into a Go string field: a JSON string yields its
value, JSON null leaves the zero value, anything else is a type error. -/
def decodeString (goType : String) : Json → Except String String
  | Json.str s => Except.ok s
  | Json.null => Except.ok ""
  | j => Except.error (cannotUnmarshal j goType)

/-- Decoding a JSON value into a Go int field. -/
def decodeInt (goType : String) : Json → Except String Int
  | Json.num n => Except.ok n
  | Json.null => Except.ok 0
  | j => Except.error (cannotUnmarshal j goType)

/-- Object fields decoded one by one into a Go map (unknown keys cannot occur
in a map decode; every key is admitted). -/
def decodeFieldsMap (dec : Json → Except String α) :
    List (String × Json) → Except String (List (String × α))
  | [] => Except.ok []
  | kv :: rest =>
    match dec kv.2 with
    | Except.ok a => (decodeFieldsMap dec rest).map (fun m => (kv.1, a) :: m)
    | Except.error e => Except.error e

/-- Decoding a JSON value into a Go map[string]T: null yields the nil map,
an object decodes each field's value, anything else is a type error. -/
def decodeStringMap (goType : String) (dec : Json → Except String α) :
    Json → Except String (List (String × α))
  | Json.null => Except.ok []
  | Json.obj fields => decodeFieldsMap dec fields
  | j => Except.error (cannotUnmarshal j goType)

/-- Struct-field loop for Server: url and weight recognised, unknown fields
skipped (Go tolerates unknown fields for forward compatibility). -/
def decodeServerFields : List (String × Json) → Server → Except String Server
  | [], acc => Except.ok acc
  | kv :: rest, acc =>
    if kv.1 = "url" then
      match decodeString "string" kv.2 with
      | Except.ok s => decodeServerFields rest { acc with url := s }
      | Except.error e => Except.error e
    else if kv.1 = "weight" then
      match decodeInt "int" kv.2 with
      | Except.ok n => decodeServerFields rest { acc with weight := n }
      | Except.error e => Except.error e
    else decodeServerFields rest acc

/-- json.Unmarshal into a Server value. -/
def decodeServer : Json → Except String Server
  | Json.null => Except.ok ⟨"", 0⟩
  | Json.obj fields => decodeServerFields fields ⟨"", 0⟩
  | j => Except.error (cannotUnmarshal j "types.Server")

/-- Struct-field loop for Route. -/
def decodeRouteFields : List (String × Json) → Route → Except String Route
  | [], acc => Except.ok acc
  | kv :: rest, acc =>
    if kv.1 = "rule" then
      match decodeString "string" kv.2 with
      | Except.ok s => decodeRouteFields rest { acc with rule := s }
      | Except.error e => Except.error e
    else decodeRouteFields rest acc

/-- json.Unmarshal into a Route value. -/
def decodeRoute : Json → Except String Route
  | Json.null => Except.ok ⟨""⟩
  | Json.obj fields => decodeRouteFields fields ⟨""⟩
  | j => Except.error (cannotUnmarshal j "types.Route")

/-- Struct-field loop for Backend. -/
def decodeBackendFields : List (String × Json) → Backend → Except String Backend
  | [], acc => Except.ok acc
  | kv :: rest, acc =>
    if kv.1 = "servers" then
      match decodeStringMap "map[string]types.Server" decodeServer kv.2 with
      | Except.ok m => decodeBackendFields rest { acc with Servers := m }
      | Except.error e => Except.error e
    else decodeBackendFields rest acc

/-- json.Unmarshal into a Backend value. -/
def decodeBackend : Json → Except String Backend
  | Json.null => Except.ok ⟨[]⟩
  | Json.obj fields => decodeBackendFields fields ⟨[]⟩
  | j => Except.error (cannotUnmarshal j "types.Backend")

/-- Struct-field loop for Frontend. -/
def decodeFrontendFields : List (String × Json) → Frontend → Except String Frontend
  | [], acc => Except.ok acc
  | kv :: rest, acc =>
    if kv.1 = "backend" then
      match decodeString "string" kv.2 with
      | Except.ok s => decodeFrontendFields rest { acc with backend := s }
      | Except.error e => Except.error e
    else if kv.1 = "routes" then
      match decodeStringMap "map[string]types.Route" decodeRoute kv.2 with
      | Except.ok m => decodeFrontendFields rest { acc with Routes := m }
      | Except.error e => Except.error e
    else decodeFrontendFields rest acc

/-- json.Unmarshal into a Frontend value. -/
def decodeFrontend : Json → Except String Frontend
  | Json.null => Except.ok ⟨"", []⟩
  | Json.obj fields => decodeFrontendFields fields ⟨"", []⟩
  | j => Except.error (cannotUnmarshal j "types.Frontend")

/-- Struct-field loop for Configuration: backends and frontends recognised,
unknown fields skipped. -/
def decodeConfigurationFields :
    List (String × Json) → Configuration → Except String Configuration
  | [], acc => Except.ok acc
  | kv :: rest, acc =>
    if kv.1 = "backends" then
      match decodeStringMap "map[string]types.Backend" decodeBackend kv.2 with
      | Except.ok m => decodeConfigurationFields rest { acc with Backends := m }
      | Except.error e => Except.error e
    else if kv.1 = "frontends" then
      match decodeStringMap "map[string]types.Frontend" decodeFrontend kv.2 with
      | Except.ok m => decodeConfigurationFields rest { acc with Frontends := m }
      | Except.error e => Except.error e
    else decodeConfigurationFields rest acc

/-- json.Unmarshal of a parsed JSON value into new(types.Configuration): null
is a no-op on the zero value, an object decodes its recognised fields, any
other top-level value is a type error. -/
def decodeConfiguration : Json → Except String Configuration
  | Json.null => Except.ok ⟨[], []⟩
  | Json.obj fields => decodeConfigurationFields fields ⟨[], []⟩
  | j => Except.error (cannotUnmarshal j "types.Configuration")

/-- The whole of json.Unmarshal(body, configuration) in the PUT handler: the
body is carried as the outcome of JSON syntax parsing of the bytes that
ReadAll produced (Except.error holds the syntax-error message), followed by
decoding into the Configuration shape. -/
def unmarshalConfiguration : Except String Json → Except String Configuration
  | Except.error e => Except.error e
  | Except.ok j => decodeConfiguration j

/-- An HTTP response as the handlers produce it: status code and body text. -/
structure Response where
  status : Nat
  body : String
deriving DecidableEq, Repr

/-- The body http.NotFound writes. -/
def notFoundResponse : Response := ⟨404, "404 page not found\n"⟩

/-- The interface value held by server.currentConfigurations (a safe.Safe
holding an untyped value); the handlers assert it to configs. -/
inductive StoredValue where
  | confs (c : configs)
  | other
deriving DecidableEq, Repr

/-- The server state visible to the handlers: the snapshot store. -/
structure ServerState where
  currentConfigurations : StoredValue
deriving DecidableEq, Repr

/-- currentConfigurations.Get(): the single store read a handler performs. -/
def storeGet (st : ServerState) : StoredValue := st.currentConfigurations

/-- The handlers' type assertion .(configs); none models a failed assertion
(a runtime panic). -/
def assertConfigs : StoredValue → Option configs
  | StoredValue.confs c => some c
  | StoredValue.other => none

/-- Modelled from the spec: the store initialization is outside the excerpt;
before the first install the store returns an empty snapshot. -/
def initialState : ServerState := ⟨StoredValue.confs []⟩

/-- Store states reachable in the program: the initial empty snapshot, and any
state produced by the aggregation collaborator installing a configs value. -/
inductive Reachable : ServerState → Prop where
  | init : Reachable initialState
  | store (c : configs) (st : ServerState) : Reachable st →
      Reachable ⟨StoredValue.confs c⟩

/-- The GET API requests of web.go, with their extracted path variables
(config covers both /api and /api/providers, served by getConfigHandler). -/
inductive ApiGet where
  | config
  | provider (p : String)
  | backends (p : String)
  | backend (p b : String)
  | servers (p b : String)
  | server (p b s : String)
  | frontends (p : String)
  | frontend (p f : String)
  | routes (p f : String)
  | route (p f r : String)
deriving DecidableEq, Repr

/-- JSON rendering of a Go map as the handlers return it. -/
def stringMapToJson (f : α → Json) (m : List (String × α)) : Json :=
  Json.obj (m.map fun kv => (kv.1, f kv.2))

/-- JSON of a Server. -/
def serverToJson (s : Server) : Json :=
  Json.obj [("url", Json.str s.url), ("weight", Json.num s.weight)]

/-- JSON of a Route. -/
def routeToJson (r : Route) : Json :=
  Json.obj [("rule", Json.str r.rule)]

/-- JSON of a Backend. -/
def backendToJson (b : Backend) : Json :=
  Json.obj [("servers", stringMapToJson serverToJson b.Servers)]

/-- JSON of a Frontend. -/
def frontendToJson (f : Frontend) : Json :=
  Json.obj [("backend", Json.str f.backend),
            ("routes", stringMapToJson routeToJson f.Routes)]

/-- JSON of a Configuration. -/
def configurationToJson (c : Configuration) : Json :=
  Json.obj [("backends", stringMapToJson backendToJson c.Backends),
            ("frontends", stringMapToJson frontendToJson c.Frontends)]

/-- JSON of the whole snapshot. -/
def configsToJson (c : configs) : Json :=
  stringMapToJson configurationToJson c

/-- The per-snapshot body of every GET API handler of web.go
(getConfigHandler, getProviderHandler, getBackendsHandler, getBackendHandler,
getServersHandler, getServerHandler, getFrontendsHandler, getFrontendHandler,
getRoutesHandler, getRouteHandler): each resolves its path variables against
the given snapshot and either renders the resolved entity with status 200 or
answers http.NotFound. -/
def getHandler (currentConfigurations : configs) : ApiGet → Response
  | ApiGet.config => ⟨200, (configsToJson currentConfigurations).render⟩
  | ApiGet.provider p =>
    match currentConfigurations.lookup p with
    | some cfg => ⟨200, (configurationToJson cfg).render⟩
    | none => notFoundResponse
  | ApiGet.backends p =>
    match currentConfigurations.lookup p with
    | some cfg => ⟨200, (stringMapToJson backendToJson cfg.Backends).render⟩
    | none => notFoundResponse
  | ApiGet.backend p b =>
    match currentConfigurations.lookup p with
    | some cfg =>
      match cfg.Backends.lookup b with
      | some be => ⟨200, (backendToJson be).render⟩
      | none => notFoundResponse
    | none => notFoundResponse
  | ApiGet.servers p b =>
    match currentConfigurations.lookup p with
    | some cfg =>
      match cfg.Backends.lookup b with
      | some be => ⟨200, (stringMapToJson serverToJson be.Servers).render⟩
      | none => notFoundResponse
    | none => notFoundResponse
  | ApiGet.server p b s =>
    match currentConfigurations.lookup p with
    | some cfg =>
      match cfg.Backends.lookup b with
      | some be =>
        match be.Servers.lookup s with
        | some sv => ⟨200, (serverToJson sv).render⟩
        | none => notFoundResponse
      | none => notFoundResponse
    | none => notFoundResponse
  | ApiGet.frontends p =>
    match currentConfigurations.lookup p with
    | some cfg => ⟨200, (stringMapToJson frontendToJson cfg.Frontends).render⟩
    | none => notFoundResponse
  | ApiGet.frontend p f =>
    match currentConfigurations.lookup p with
    | some cfg =>
      match cfg.Frontends.lookup f with
      | some fe => ⟨200, (frontendToJson fe).render⟩
      | none => notFoundResponse
    | none => notFoundResponse
  | ApiGet.routes p f =>
    match currentConfigurations.lookup p with
    | some cfg =>
      match cfg.Frontends.lookup f with
      | some fe => ⟨200, (stringMapToJson routeToJson fe.Routes).render⟩
      | none => notFoundResponse
    | none => notFoundResponse
  | ApiGet.route p f r =>
    match currentConfigurations.lookup p with
    | some cfg =>
      match cfg.Frontends.lookup f with
      | some fe =>
        match fe.Routes.lookup r with
        | some rt => ⟨200, (routeToJson rt).render⟩
        | none => notFoundResponse
      | none => notFoundResponse
    | none => notFoundResponse

/-- A GET API handler as dispatched: one Get on the store, the type assertion,
then the per-snapshot handler; none models the assertion panic. -/
def dispatchGet (st : ServerState) (q : ApiGet) : Option Response :=
  (assertConfigs (storeGet st)).map (fun c => getHandler c q)

/-- The PUT /api/providers/\x7bprovider\x7d closure of Provide, in source
order: the read-only check, the wrong-target check, then ReadAll (whose error
is discarded: readErr), json.Unmarshal of the bytes read, and on success the
channel send followed by getConfigHandler on the same store.  The result is
the response (none models a panic inside getConfigHandler) and the list of
messages sent on the configuration channel. -/
def handlePut (readOnly : Bool) (st : ServerState) (providerVar : String)
    (body : Except String Json) (readErr : Bool) :
    Option Response × List ConfigMessage :=
  if readOnly then
    (some ⟨403, "REST API is in read-only mode"⟩, [])
  else if providerVar ≠ "web" then
    (some ⟨400, "Only \x27web\x27 provider can be updated through the REST API"⟩, [])
  else
    match unmarshalConfiguration body with
    | Except.ok cfg =>
      ((assertConfigs (storeGet st)).map (fun c => getHandler c ApiGet.config),
       [⟨"web", cfg⟩])
    | Except.error e =>
      (some ⟨400, e ++ "\n"⟩, [])

/-- The observable server-side state of one request: the snapshot store and
the sequence of messages sent so far on the configuration channel. -/
structure World where
  store : ServerState
  channel : List ConfigMessage
deriving DecidableEq, Repr

/-- One GET API request as a state transition. -/
def stepGet (w : World) (q : ApiGet) : Option Response × World :=
  (dispatchGet w.store q, w)

/-- One PUT request as a state transition: the store is only read, the
channel receives the messages the handler sent. -/
def stepPut (readOnly : Bool) (w : World) (providerVar : String)
    (body : Except String Json) (readErr : Bool) : Option Response × World :=
  let r := handlePut readOnly w.store providerVar body readErr
  (r.1, ⟨w.store, w.channel ++ r.2⟩)

/-- A route registration of Provide: HTTP method and mux path. -/
structure RouteEntry where
  method : String
  path : String
deriving DecidableEq, Repr

/-- The route table Provide registers on systemRouter, in source order; the
debug flag gates the /debug/vars registration. -/
def systemRoutes (debug : Bool) : List RouteEntry :=
  [⟨"GET", "/health"⟩,
   ⟨"GET", "/api"⟩,
   ⟨"GET", "/api/providers"⟩,
   ⟨"GET", "/api/providers/\x7bprovider\x7d"⟩,
   ⟨"PUT", "/api/providers/\x7bprovider\x7d"⟩,
   ⟨"GET", "/api/providers/\x7bprovider\x7d/backends"⟩,
   ⟨"GET", "/api/providers/\x7bprovider\x7d/backends/\x7bbackend\x7d"⟩,
   ⟨"GET", "/api/providers/\x7bprovider\x7d/backends/\x7bbackend\x7d/servers"⟩,
   ⟨"GET", "/api/providers/\x7bprovider\x7d/backends/\x7bbackend\x7d/servers/\x7bserver\x7d"⟩,
   ⟨"GET", "/api/providers/\x7bprovider\x7d/frontends"⟩,
   ⟨"GET", "/api/providers/\x7bprovider\x7d/frontends/\x7bfrontend\x7d"⟩,
   ⟨"GET", "/api/providers/\x7bprovider\x7d/frontends/\x7bfrontend\x7d/routes"⟩,
   ⟨"GET", "/api/providers/\x7bprovider\x7d/frontends/\x7bfrontend\x7d/routes/\x7broute\x7d"⟩,
   ⟨"GET", "/"⟩,
   ⟨"GET", "/dashboard/"⟩]
  ++ (if debug then [⟨"GET", "/debug/vars"⟩] else [])

/-- The expvar registry modelled as its iteration sequence: each registered
variable's name paired with its current JSON rendering. -/
abbrev ExpvarSeq := List (String × String)

/-- Translated from init in web.go: expvar.Publish("Goroutines", ...) adds the
Goroutines variable (g is its current rendering) to the registry. -/
def initPublish (registry : ExpvarSeq) (g : String) : ExpvarSeq :=
  registry ++ [("Goroutines", g)]

/-- One emitted entry of expvarHandler: fmt.Fprintf(w, "%q: %s", key, value). -/
def expvarEntry (kv : String × String) : String :=
  goQuote kv.1 ++ ": " ++ kv.2

/-- The expvar.Do loop of expvarHandler: the first flag suppresses the comma
separator before the first entry. -/
def expvarLoop : List (String × String) → String → Bool → String
  | [], acc, _ => acc
  | kv :: rest, acc, first =>
    expvarLoop rest (acc ++ (if first then "" else ",\n") ++ expvarEntry kv) false

/-- The full body expvarHandler streams: opening brace line, the loop over the
registry, closing brace line. -/
def expvarBody (registry : ExpvarSeq) : String :=
  expvarLoop registry "\x7b\n" true ++ "\n\x7d\n"

/-- The entity a drill-down GET resolves to. -/
inductive Entity where
  | oneConfig (cfg : Configuration)
  | backendMap (m : List (String × Backend))
  | oneBackend (b : Backend)
  | serverMap (m : List (String × Server))
  | oneServer (s : Server)
  | frontendMap (m : List (String × Frontend))
  | oneFrontend (f : Frontend)
  | routeMap (m : List (String × Route))
  | oneRoute (r : Route)
deriving Repr

/-- JSON of a resolved entity. -/
def entityToJson : Entity → Json
  | Entity.oneConfig cfg => configurationToJson cfg
  | Entity.backendMap m => stringMapToJson backendToJson m
  | Entity.oneBackend b => backendToJson b
  | Entity.serverMap m => stringMapToJson serverToJson m
  | Entity.oneServer s => serverToJson s
  | Entity.frontendMap m => stringMapToJson frontendToJson m
  | Entity.oneFrontend f => frontendToJson f
  | Entity.routeMap m => stringMapToJson routeToJson m
  | Entity.oneRoute r => routeToJson r

/-- Second definition for the refinement claim on drill-downs, following the
spec's words: resolve each path segment sequentially, left to right, against
the corresponding mapping of the snapshot; the first segment not found
short-circuits to none, with no partial result.  (config is not a drill-down
and resolves to none here.) -/
def specDrillDown (c : configs) : ApiGet → Option Entity
  | ApiGet.config => none
  | ApiGet.provider p => (c.lookup p).map Entity.oneConfig
  | ApiGet.backends p =>
    (c.lookup p).map (fun cfg => Entity.backendMap cfg.Backends)
  | ApiGet.backend p b =>
    (c.lookup p).bind fun cfg =>
      (cfg.Backends.lookup b).map Entity.oneBackend
  | ApiGet.servers p b =>
    (c.lookup p).bind fun cfg =>
      (cfg.Backends.lookup b).map (fun be => Entity.serverMap be.Servers)
  | ApiGet.server p b s =>
    (c.lookup p).bind fun cfg =>
      (cfg.Backends.lookup b).bind fun be =>
        (be.Servers.lookup s).map Entity.oneServer
  | ApiGet.frontends p =>
    (c.lookup p).map (fun cfg => Entity.frontendMap cfg.Frontends)
  | ApiGet.frontend p f =>
    (c.lookup p).bind fun cfg =>
      (cfg.Frontends.lookup f).map Entity.oneFrontend
  | ApiGet.routes p f =>
    (c.lookup p).bind fun cfg =>
      (cfg.Frontends.lookup f).map (fun fe => Entity.routeMap fe.Routes)
  | ApiGet.route p f r =>
    (c.lookup p).bind fun cfg =>
      (cfg.Frontends.lookup f).bind fun fe =>
        (fe.Routes.lookup r).map Entity.oneRoute

/-- Response the spec's drill-down algorithm dictates: 200 with the JSON of
the resolved entity, or 404 when resolution short-circuits. -/
def entityResponse : Option Entity → Response
  | some e => ⟨200, (entityToJson e).render⟩
  | none => notFoundResponse

/-- Suffix form of comma-newline-separated joining: every element preceded by
the separator. -/
def joinSep : List String → String
  | [] => ""
  | x :: xs => ",\n" ++ x ++ joinSep xs

/-- Comma-newline-separated joining of a list of strings. -/
def joinCommaNl : List String → String
  | [] => ""
  | [x] => x
  | x :: y :: xs => x ++ ",\n" ++ joinCommaNl (y :: xs)

/-- Second definition for the refinement claim on the dump endpoint, following
the spec's words: a JSON object holding one quoted-key/value entry per
registered variable, comma-separated, wrapped in braces, in registry
iteration order. -/
def specExpvarDump (registry : ExpvarSeq) : String :=
  "\x7b\n" ++ joinCommaNl (registry.map expvarEntry) ++ "\n\x7d\n"

theorem expvarLoop_false (l : List (String × String)) (acc : String) :
    expvarLoop l acc false = acc ++ joinSep (l.map expvarEntry) := by
  induction l generalizing acc with
  | nil => simp [expvarLoop, joinSep]
  | cons kv rest ih =>
    simp only [expvarLoop, List.map, joinSep, if_neg]
    rw [ih]
    simp [String.append_assoc]

theorem joinCommaNl_cons (x : String) (xs : List String) :
    joinCommaNl (x :: xs) = x ++ joinSep xs := by
  induction xs generalizing x with
  | nil => simp [joinCommaNl, joinSep]
  | cons y ys ih =>
    simp only [joinCommaNl, joinSep]
    rw [ih]
    simp [String.append_assoc]

theorem expvarBody_eq_spec (registry : ExpvarSeq) :
    expvarBody registry = specExpvarDump registry := by
  cases registry with
  | nil => simp [expvarBody, expvarLoop, specExpvarDump, joinCommaNl]
  | cons kv rest =>
    simp only [expvarBody, expvarLoop, List.map, specExpvarDump]
    rw [expvarLoop_false, joinCommaNl_cons]
    simp [String.append_assoc]

/-- Claim C1 fails as stated: with the read-only flag enabled, a PUT targeting
provider id "file" (≠ "web") is answered 403 by the read-only check, which
runs before the wrong-target check — not 400.  (Nothing is sent on the
channel in either case.) -/
theorem C1_counterexample :
    (handlePut true ⟨StoredValue.confs []⟩ "file" (Except.ok Json.null) false).1 =
      some ⟨403, "REST API is in read-only mode"⟩ ∧
    (handlePut true ⟨StoredValue.confs []⟩ "file" (Except.ok Json.null) false).2 = [] ∧
    (403 : Nat) ≠ 400 :=
  ⟨rfl, rfl, by decide⟩

/-- Claim C1 amended: with read-only off, a PUT to any provider id other than
"web" is answered 400 with the fixed text and nothing is sent on the
configuration channel; with read-only on, the read-only check fires first and
the handler answers 403 with its fixed text, still sending nothing. -/
theorem C1_theorem (st : ServerState) (pv : String) (body : Except String Json)
    (rerr : Bool) (h : pv ≠ "web") :
    handlePut false st pv body rerr =
      (some ⟨400, "Only \x27web\x27 provider can be updated through the REST API"⟩, []) ∧
    handlePut true st pv body rerr =
      (some ⟨403, "REST API is in read-only mode"⟩, []) := by
  constructor
  · simp [handlePut, h]
  · simp [handlePut]

/-- Claim C1 witness: the amended statement at provider id "file". -/
theorem C1_witness :
    handlePut false initialState "file" (Except.ok Json.null) false =
      (some ⟨400, "Only \x27web\x27 provider can be updated through the REST API"⟩, []) ∧
    handlePut true initialState "file" (Except.ok Json.null) false =
      (some ⟨403, "REST API is in read-only mode"⟩, []) :=
  C1_theorem initialState "file" (Except.ok Json.null) false (by decide)

/-- Claim C2: with the read-only flag on, every PUT is answered 403 with the
fixed message, the world (store and channel) is exactly as before, and the
outcome is independent of the request body and of the body-read error, so no
parsing and no channel send take place. -/
theorem C2_theorem (w : World) (pv : String) (body bodyB : Except String Json)
    (rerr rerrB : Bool) :
    stepPut true w pv body rerr =
      (some ⟨403, "REST API is in read-only mode"⟩, w) ∧
    stepPut true w pv body rerr = stepPut true w pv bodyB rerrB := by
  constructor <;> simp [stepPut, handlePut]

/-- Claim C3: every GET drill-down handler agrees with the spec's left-to-right
segment resolution — 404 at the first missing segment with no partial result,
200 with the JSON of the resolved entity when every segment resolves. -/
theorem C3_theorem (c : configs) (q : ApiGet) (h : q ≠ ApiGet.config) :
    getHandler c q = entityResponse (specDrillDown c q) := by
  cases q with
  | config => exact absurd rfl h
  | provider p =>
    cases hp : c.lookup p <;>
      simp [getHandler, specDrillDown, entityResponse, entityToJson, hp]
  | backends p =>
    cases hp : c.lookup p <;>
      simp [getHandler, specDrillDown, entityResponse, entityToJson, hp]
  | backend p b =>
    cases hp : c.lookup p with
    | none => simp [getHandler, specDrillDown, entityResponse, hp]
    | some cfg =>
      cases hb : cfg.Backends.lookup b <;>
        simp [getHandler, specDrillDown, entityResponse, entityToJson, hp, hb]
  | servers p b =>
    cases hp : c.lookup p with
    | none => simp [getHandler, specDrillDown, entityResponse, hp]
    | some cfg =>
      cases hb : cfg.Backends.lookup b <;>
        simp [getHandler, specDrillDown, entityResponse, entityToJson, hp, hb]
  | server p b s =>
    cases hp : c.lookup p with
    | none => simp [getHandler, specDrillDown, entityResponse, hp]
    | some cfg =>
      cases hb : cfg.Backends.lookup b with
      | none => simp [getHandler, specDrillDown, entityResponse, hp, hb]
      | some be =>
        cases hs : be.Servers.lookup s <;>
          simp [getHandler, specDrillDown, entityResponse, entityToJson, hp, hb, hs]
  | frontends p =>
    cases hp : c.lookup p <;>
      simp [getHandler, specDrillDown, entityResponse, entityToJson, hp]
  | frontend p f =>
    cases hp : c.lookup p with
    | none => simp [getHandler, specDrillDown, entityResponse, hp]
    | some cfg =>
      cases hf : cfg.Frontends.lookup f <;>
        simp [getHandler, specDrillDown, entityResponse, entityToJson, hp, hf]
  | routes p f =>
    cases hp : c.lookup p with
    | none => simp [getHandler, specDrillDown, entityResponse, hp]
    | some cfg =>
      cases hf : cfg.Frontends.lookup f <;>
        simp [getHandler, specDrillDown, entityResponse, entityToJson, hp, hf]
  | route p f r =>
    cases hp : c.lookup p with
    | none => simp [getHandler, specDrillDown, entityResponse, hp]
    | some cfg =>
      cases hf : cfg.Frontends.lookup f with
      | none => simp [getHandler, specDrillDown, entityResponse, hp, hf]
      | some fe =>
        cases hr : fe.Routes.lookup r <;>
          simp [getHandler, specDrillDown, entityResponse, entityToJson, hp, hf, hr]

/-- Claim C3 witness: the drill-down refinement at a concrete request. -/
theorem C3_witness :
    getHandler [] (ApiGet.server "docker" "web-backend" "s1") =
      entityResponse (specDrillDown [] (ApiGet.server "docker" "web-backend" "s1")) :=
  C3_theorem [] (ApiGet.server "docker" "web-backend" "s1") (by decide)

/-- Claim C4 fails as stated: on a successful PUT the handler responds via
getConfigHandler — the whole snapshot, always 200 — not as a GET of the same
path /api/providers/web would.  On the empty snapshot that GET answers 404
while the PUT answers 200 with the empty object. -/
theorem C4_counterexample :
    (handlePut false ⟨StoredValue.confs []⟩ "web" (Except.ok Json.null) false).1 =
      some ⟨200, "\x7b\x7d"⟩ ∧
    getHandler [] (ApiGet.provider "web") = notFoundResponse ∧
    (⟨200, "\x7b\x7d"⟩ : Response) ≠ notFoundResponse :=
  ⟨rfl, rfl, by decide⟩

/-- Claim C4 amended: for every PUT to /api/providers/web with read-only off
whose body unmarshals, the handler sends exactly one message on the
configuration channel, tagged "web" and carrying the parsed configuration,
and then responds as a GET of /api (the whole-snapshot endpoint,
getConfigHandler) would, re-reading the store rather than echoing the
submitted payload. -/
theorem C4_theorem (c : configs) (body : Except String Json)
    (cfg : Configuration) (rerr : Bool)
    (h : unmarshalConfiguration body = Except.ok cfg) :
    handlePut false ⟨StoredValue.confs c⟩ "web" body rerr =
      (some (getHandler c ApiGet.config), [⟨"web", cfg⟩]) := by
  simp [handlePut, h, storeGet, assertConfigs]

/-- Claim C4 witness: the amended statement at the null body on the empty
snapshot. -/
theorem C4_witness :
    handlePut false ⟨StoredValue.confs []⟩ "web" (Except.ok Json.null) false =
      (some (getHandler [] ApiGet.config), [⟨"web", ⟨[], []⟩⟩]) :=
  C4_theorem [] (Except.ok Json.null) ⟨[], []⟩ false rfl

/-- Claim C5 fails as stated: a body that is valid JSON (here the array [])
still draws a 400 parse-error response, because json.Unmarshal rejects a
top-level value that does not fit the Configuration struct. -/
theorem C5_counterexample :
    (Except.ok (Json.arr []) : Except String Json).isOk = true ∧
    (handlePut false ⟨StoredValue.confs []⟩ "web" (Except.ok (Json.arr [])) false).1 =
      some ⟨400,
        "json: cannot unmarshal array into Go value of type types.Configuration\n"⟩ ∧
    (handlePut false ⟨StoredValue.confs []⟩ "web" (Except.ok (Json.arr [])) false).2 = [] :=
  ⟨rfl, rfl, rfl⟩

/-- Claim C5 amended: a PUT to /api/providers/web with read-only off answers
400 if and only if json.Unmarshal of the body into a Configuration fails —
the body is not valid JSON, or is valid JSON whose value does not fit the
Configuration shape (such as a top-level array); in that failing case the 400
body is the error message rendered as text (with the newline http.Error
appends) and nothing is sent on the configuration channel; a valid JSON
object body with missing or unknown fields is not a failure and decodes to
the entity defaults (empty mappings). -/
theorem C5_theorem (c : configs) (body : Except String Json) (rerr : Bool) :
    (((handlePut false ⟨StoredValue.confs c⟩ "web" body rerr).1.map Response.status
        = some 400) ↔ ∃ e, unmarshalConfiguration body = Except.error e) ∧
    (∀ e, unmarshalConfiguration body = Except.error e →
      handlePut false ⟨StoredValue.confs c⟩ "web" body rerr =
        (some ⟨400, e ++ "\n"⟩, [])) ∧
    decodeConfiguration (Json.obj []) = Except.ok ⟨[], []⟩ ∧
    decodeConfiguration (Json.obj [("unknownField", Json.num 3)]) =
      Except.ok ⟨[], []⟩ := by
  refine ⟨?_, ?_, rfl, rfl⟩
  · cases hu : unmarshalConfiguration body with
    | ok cfg => simp [handlePut, hu, storeGet, assertConfigs, getHandler]
    | error e => simp [handlePut, hu]
  · intro e he
    simp [handlePut, he]

/-- Claim C5 witness: the amended statement at a syntactically invalid body. -/
theorem C5_witness :
    handlePut false ⟨StoredValue.confs []⟩ "web" (Except.error "boom") false =
      (some ⟨400, "boom\n"⟩, []) :=
  (C5_theorem [] (Except.error "boom") false).2.1 "boom" rfl

/-- Claim C6: on every reachable store state — the spec-modelled empty
snapshot before the first install, or any installed configs value — every GET
API handler's single Get and type assertion succeed (some response, no
panic), and the response depends on the store only through that one Get
value, so the snapshot is loaded once and used consistently. -/
theorem C6_theorem (st : ServerState) (hre : Reachable st) (q : ApiGet) :
    (∃ r, dispatchGet st q = some r) ∧
    (∀ stB, storeGet stB = storeGet st → dispatchGet stB q = dispatchGet st q) := by
  refine ⟨?_, ?_⟩
  · cases hre with
    | init => exact ⟨getHandler [] q, rfl⟩
    | store c stp hst => exact ⟨getHandler c q, rfl⟩
  · intro stB hB
    simp [dispatchGet, hB]

/-- Claim C6 witness: the statement at the initial state and the whole-config
request. -/
theorem C6_witness :
    (∃ r, dispatchGet initialState ApiGet.config = some r) ∧
    (∀ stB, storeGet stB = storeGet initialState →
      dispatchGet stB ApiGet.config = dispatchGet initialState ApiGet.config) :=
  C6_theorem initialState Reachable.init ApiGet.config

/-- Claim C7: no handler writes to the snapshot store — a GET leaves the world
unchanged, and a PUT leaves the store unchanged and only appends at most one
message to the configuration channel. -/
theorem C7_theorem (w : World) (q : ApiGet) (readOnly : Bool) (pv : String)
    (body : Except String Json) (rerr : Bool) :
    (stepGet w q).2 = w ∧
    (stepPut readOnly w pv body rerr).2.store = w.store ∧
    ∃ sent, sent.length ≤ 1 ∧
      (stepPut readOnly w pv body rerr).2.channel = w.channel ++ sent := by
  refine ⟨rfl, rfl, (handlePut readOnly w.store pv body rerr).2, ?_, rfl⟩
  unfold handlePut
  split
  · simp
  · split
    · simp
    · split <;> simp

/-- Claim C8: repeating the same GET drill-down against an unmodified world
yields the same response, hence a byte-identical body — the handler is a
deterministic function of the snapshot and the path parameters, and the first
GET does not modify the snapshot. -/
theorem C8_theorem (w : World) (q : ApiGet) :
    (stepGet (stepGet w q).2 q).1 = (stepGet w q).1 ∧
    ((stepGet (stepGet w q).2 q).1).map Response.body =
      ((stepGet w q).1).map Response.body :=
  ⟨rfl, rfl⟩

/-- Claim C9: the /debug/vars route is registered exactly when the debug flag
is on; the body the handler streams equals the spec's shape — one quoted
key/value entry per registered variable, comma-separated, wrapped in brace
lines, in registry iteration order — and init publishes the Goroutines
variable into the registry. -/
theorem C9_theorem (debug : Bool) (registry : ExpvarSeq) (g : String) :
    ((⟨"GET", "/debug/vars"⟩ : RouteEntry) ∈ systemRoutes debug ↔ debug = true) ∧
    expvarBody registry = specExpvarDump registry ∧
    "Goroutines" ∈ (initPublish registry g).map Prod.fst := by
  refine ⟨?_, expvarBody_eq_spec registry, ?_⟩
  · cases debug <;> decide
  · simp [initPublish]

/-- Claim C10: the PUT handler discards the body-read error — its outcome is
independent of that error, the partial bytes' parse outcome alone decides the
response — and every response it produces has status 200, 400 or 403, never a
5xx. -/
theorem C10_theorem (readOnly : Bool) (st : ServerState) (pv : String)
    (body : Except String Json) (rerr : Bool) :
    handlePut readOnly st pv body rerr = handlePut readOnly st pv body false ∧
    (∀ r, (handlePut readOnly st pv body rerr).1 = some r →
      r.status = 200 ∨ r.status = 400 ∨ r.status = 403) := by
  refine ⟨rfl, ?_⟩
  intro r hr
  unfold handlePut at hr
  split at hr
  · simp at hr
    simp [← hr]
  · split at hr
    · simp at hr
      simp [← hr]
    · split at hr
      · simp [storeGet, assertConfigs] at hr
        rcases hr with ⟨cc, hcc, hrr⟩
        simp [← hrr, getHandler]
      · simp at hr
        simp [← hr]

/-- Claim C10 witness: the statement at the read-only state with a pending
read error, instantiated at the response the handler produces there. -/
theorem C10_witness :
    handlePut true initialState "web" (Except.ok Json.null) true =
      handlePut true initialState "web" (Except.ok Json.null) false ∧
    ((403 : Nat) = 200 ∨ (403 : Nat) = 400 ∨ (403 : Nat) = 403) :=
  ⟨(C10_theorem true initialState "web" (Except.ok Json.null) true).1,
   (C10_theorem true initialState "web" (Except.ok Json.null) true).2
     ⟨403, "REST API is in read-only mode"⟩ rfl⟩
